import Mathlib

/-!
# manhua-go: the page content extraction pipeline

A shallow embedding of `src/main.go`: the two request workflows (`initChapter`,
`scrape`), the two image probes (`scrapeLongPage`, `scrapePage`) and the two
pager resolvers (`getChapterPager`, `getPagePager`).

The browser-automation library is not part of the repository.  Every
`chromedp` action the source issues is represented by one field of `Engine`
holding the outcome of that action; the Go control flow around those outcomes
is transcribed statement by statement.  Go strings are embedded as Lean
strings, so `s[0] == '/'` (a comparison of the first byte with `0x2F`) is the
comparison of the first character with `'/'`.
-/

namespace ManhuaGo

/-! ## Data model -/

/-- The ways a Go call can end without returning: `log.Fatal(err)` prints the
error and exits the process, and an index expression out of range raises a
runtime panic. -/
inductive Fault where
  | fatal (err : String)
  | indexOutOfRange
  deriving DecidableEq

/-- Go `type PageRequest struct { Url string }`. -/
structure PageRequest where
  Url : String
  deriving DecidableEq

/-- Go `type PageNumber struct { Number string; Url string }`. -/
structure PageNumber where
  Number : String
  Url : String
  deriving DecidableEq

/-- Go `type PageResponse struct`; the default value of every field is the Go
zero value (a nil slice is the empty list). -/
structure PageResponse where
  ImageUrl : List String := []
  ChapterPager : List PageNumber := []
  PagePager : List PageNumber := []
  LongPage : Bool := false
  CurrentPage : String := ""
  deriving DecidableEq

/-- Modelled from the spec: the DOM node type `cdp.Node` of the automation
library is not in the repository.  A node is the list of its attributes, name
and value (spec section 6: `readAttribute(node, name) -> value-or-absent`). -/
structure Node where
  Attributes : List (String × String)
  deriving DecidableEq

/-- Modelled from the spec: `readAttribute(node, name) -> value-or-absent`,
the first attribute of that name when there is one. -/
def Node.Attribute (node : Node) (name : String) : Option String :=
  match node.Attributes.find? (fun kv => kv.1 == name) with
  | some kv => some kv.2
  | none => none

/-- Modelled from the spec: the accessor `node.AttributeValue(name)` used by the
source; an absent attribute reads as the empty string (spec section 4.1:
"entries with an absent attribute are recorded as empty strings"). -/
def Node.AttributeValue (node : Node) (name : String) : String :=
  match node.Attribute name with
  | some v => v
  | none => ""

/-- The outcome of every action the source asks of the automation engine during
one request.  An `Option String` is the Go `error` of an action that yields no
value (`none` is `nil`); an `Except String _` is the error or the value.
The outcomes are independent of one another, and an action issued twice
during the request (the navigation, in `initChapter`) ends the same way both
times.

* `navigate url`: `chromedp.Navigate(url)`;
* `waitLoadSrc`: `chromedp.WaitVisible(".load-src")` under the one-second
  deadline;
* `nodesLoadSrc`: `chromedp.Nodes(".load-src", ByQueryAll)`;
* `waitCpImage`: `chromedp.WaitVisible("#cp_image")`;
* `attrCpImage`: `chromedp.AttributeValue("#cp_image", "src", &nodeValue, &ok)`,
  `none` when the element has no `src` (`ok = false`);
* `nodesViewPaging`: `chromedp.Nodes(".view-paging>div>a", ByQueryAll)`;
* `nodesChapterpager`: `chromedp.Nodes("#chapterpager>a", ByQueryAll)`;
* `innerHTMLs`: the script collecting `innerHTML` of every element matching
  `#chapterpager>a`;
* `current`: `document.querySelector('.current')`, as the inner HTML of the
  element found, `none` when no element carries the class (JavaScript `null`),
  or the error of the evaluation itself. -/
structure Engine where
  navigate : String → Option String
  waitLoadSrc : Option String
  nodesLoadSrc : Except String (List Node)
  waitCpImage : Option String
  attrCpImage : Except String (Option String)
  nodesViewPaging : Except String (List Node)
  nodesChapterpager : Except String (List Node)
  innerHTMLs : Except String (List String)
  current : Except String (Option String)

/-! ## Go primitives -/

/-- Go `s[0]` on a string: the first character, a runtime panic on the empty
string. -/
def index0 (s : String) : Except Fault Char :=
  match s.data with
  | [] => .error .indexOutOfRange
  | c :: _ => .ok c

/-- Go `xs[i]` on a slice: a runtime panic when `i` is not below `len(xs)`. -/
def sliceIndex {α : Type} (xs : List α) (i : Nat) : Except Fault α :=
  match xs[i]? with
  | some x => .ok x
  | none => .error .indexOutOfRange

/-- Go `xs[0 : len(xs)/2]`. -/
def firstHalf {α : Type} (xs : List α) : List α :=
  xs.take (xs.length / 2)

/-- The script `document.querySelector('.current').innerHTML;` of
`getPagePager`: reading `innerHTML` of `null` throws, and `chromedp.Evaluate`
returns the exception as its error. -/
def evalCurrent (e : Engine) : Except String String :=
  match e.current with
  | .error err => .error err
  | .ok none => .error "TypeError: Cannot read properties of null (reading innerHTML)"
  | .ok (some html) => .ok html

/-! ## The probes -/

/-- The loop `for _, node := range nodes { response.ImageUrl = append(response.ImageUrl, node.AttributeValue("src")) }`. -/
def appendSrc (imageUrl : List String) (nodes : List Node) : List String :=
  nodes.foldl (fun acc node => acc ++ [node.AttributeValue "src"]) imageUrl

/-- The second `chromedp.Run` of `scrapeLongPage` (wait, then query): the
value of `nodes` afterwards.  `nodes` stays nil when either action fails; the
error is only printed. -/
def longPageNodes (e : Engine) : List Node :=
  match e.waitLoadSrc with
  | some _ => []
  | none =>
    match e.nodesLoadSrc with
    | .error _ => []
    | .ok nodes => nodes

/-- Go `func (pr *PageRequest) scrapeLongPage(ctx) (response PageResponse)`. -/
def scrapeLongPage (e : Engine) (pr : PageRequest) : Except Fault PageResponse :=
  match e.navigate pr.Url with
  | some err => .error (.fatal err)
  | none =>
    let response : PageResponse := {}
    .ok { response with ImageUrl := appendSrc response.ImageUrl (longPageNodes e) }

/-- The `chromedp.Run` of `scrapePage` (navigate, wait, read the attribute):
the values of `nodeValue` and `ok` afterwards.  The actions run in order and
the first error stops the run; the error is only printed. -/
def cpImageSrc (e : Engine) (pr : PageRequest) : String × Bool :=
  match e.navigate pr.Url with
  | some _ => ("", false)
  | none =>
    match e.waitCpImage with
    | some _ => ("", false)
    | none =>
      match e.attrCpImage with
      | .error _ => ("", false)
      | .ok none => ("", false)
      | .ok (some v) => (v, true)

/-- Go `func (pr *PageRequest) scrapePage(ctx) (response PageResponse)`. -/
def scrapePage (e : Engine) (pr : PageRequest) : PageResponse :=
  let response : PageResponse := {}
  let (nodeValue, ok) := cpImageSrc e pr
  if ok then { response with ImageUrl := response.ImageUrl ++ [nodeValue] } else response

/-! ## The pager resolvers -/

/-- The loop of `getChapterPager` over the halved node slice, `chapterArray`
being the accumulator. -/
def chapterLoop : List Node → List PageNumber → Except Fault (List PageNumber)
  | [], chapterArray => .ok chapterArray
  | node :: rest, chapterArray => do
    let c ← index0 (node.AttributeValue "href")
    if c = '/' then
      chapterLoop rest (chapterArray ++ [{ Number := "", Url := node.AttributeValue "href" }])
    else
      chapterLoop rest chapterArray

/-- Go `func (response *PageResponse) getChapterPager(ctx)`; the receiver is
passed in and the updated value returned. -/
def getChapterPager (e : Engine) (response : PageResponse) : Except Fault PageResponse :=
  match e.nodesViewPaging with
  | .error err => .error (.fatal err)
  | .ok nodes => do
    let chapterArray ← chapterLoop (firstHalf nodes) []
    pure { response with ChapterPager := chapterArray }

/-- The loop of `getPagePager` over the halved node slice: `index` is the range
index and `pagesArray` the accumulator. -/
def pageLoop (pageNumbers : List String) :
    List Node → Nat → List PageNumber → Except Fault (List PageNumber)
  | [], _, pagesArray => .ok pagesArray
  | node :: rest, index, pagesArray => do
    let number ← sliceIndex pageNumbers index
    pageLoop pageNumbers rest (index + 1)
      (pagesArray ++ [{ Number := number, Url := node.AttributeValue "href" }])

/-- The `chromedp.Run` of `getPagePager`: node query, label script, marker
script, in that order; the first error is the error of the run. -/
def pagePagerRun (e : Engine) : Except String (List Node × List String × String) :=
  match e.nodesChapterpager with
  | .error err => .error err
  | .ok nodes =>
    match e.innerHTMLs with
    | .error err => .error err
    | .ok pageNumbers =>
      match evalCurrent e with
      | .error err => .error err
      | .ok currentPage => .ok (nodes, pageNumbers, currentPage)

/-- Go `func (response *PageResponse) getPagePager(ctx)`. -/
def getPagePager (e : Engine) (response : PageResponse) : Except Fault PageResponse :=
  match pagePagerRun e with
  | .error err2 => .error (.fatal err2)
  | .ok (nodes, pageNumbers, currentPage) => do
    let pageNumbers := firstHalf pageNumbers
    let nodes := firstHalf nodes
    let pagesArray ← pageLoop pageNumbers nodes 0 []
    pure { response with PagePager := pagesArray, CurrentPage := currentPage }

/-! ## The workflows -/

/-- Go `func initChapter(c *gin.Context)` after the request body is bound: the
response handed to `c.IndentedJSON`, or the fault that ends the call. -/
def initChapter (e : Engine) (pr : PageRequest) : Except Fault PageResponse := do
  let response ← scrapeLongPage e pr
  if response.ImageUrl.length < 1 then
    let response := scrapePage e pr
    getPagePager e response
  else
    let response ← getChapterPager e response
    pure { response with LongPage := true }

/-- Go `func scrape(c *gin.Context)` after the request body is bound. -/
def scrape (e : Engine) (pr : PageRequest) : Except Fault PageResponse := do
  let response := scrapePage e pr
  let response ← getChapterPager e response
  getPagePager e response

/-- The target of a link begins with the path separator. -/
def beginsWithSlash (s : String) : Bool :=
  s.data.head? == some '/'

/-- The chapter pager entries of a list of candidate nodes: one entry with an
empty number for every node whose `href` begins with `/`, in order. -/
def keptChapters (nodes : List Node) : List PageNumber :=
  (nodes.filter (fun node => beginsWithSlash (node.AttributeValue "href"))).map
    (fun node => { Number := "", Url := node.AttributeValue "href" })

/-- The page pager entries that pair labels and nodes index by index, as long
as both lists last. -/
def pairPages (labels : List String) (nodes : List Node) : List PageNumber :=
  List.zipWith (fun label node => { Number := label, Url := node.AttributeValue "href" })
    labels nodes

/-- An anchor node whose only attribute is `href`. -/
def anchor (href : String) : Node :=
  { Attributes := [("href", href)] }

/-- An element node whose only attribute is `src`. -/
def img (src : String) : Node :=
  { Attributes := [("src", src)] }

/-- An engine on which every action succeeds and every selector matches
nothing except the current-page marker, whose text is `1`. -/
def quietEngine : Engine where
  navigate := fun _ => none
  waitLoadSrc := none
  nodesLoadSrc := .ok []
  waitCpImage := none
  attrCpImage := .ok none
  nodesViewPaging := .ok []
  nodesChapterpager := .ok []
  innerHTMLs := .ok []
  current := .ok (some "1")

/-- A page whose chapter pager container holds the anchors `/prev` and `#top`,
each rendered twice. -/
def chapterEngine : Engine :=
  { quietEngine with
    nodesViewPaging := .ok [anchor "/prev", anchor "#top", anchor "/prev", anchor "#top"] }

/-- A page whose chapter pager container holds one anchor without an `href`
attribute, rendered twice. -/
def bareAnchorEngine : Engine :=
  { quietEngine with nodesViewPaging := .ok [{ Attributes := [] }, { Attributes := [] }] }

/-- A long page of three stacked images, the second without a `src`. -/
def longEngine : Engine :=
  { quietEngine with
    nodesLoadSrc := .ok [img "http://x/1.png", { Attributes := [] }, img "http://x/3.png"] }

/-- A single-image page: no long-page container, the image
`http://x/img.png`, a chapter pager of four anchors (canonical half `/prev`,
`/next`), a page pager of four anchors (canonical half `/p3`, `/p4`, labelled
`3`, `4`) and the current-page marker `3`. -/
def singleEngine : Engine where
  navigate := fun _ => none
  waitLoadSrc := some "context deadline exceeded"
  nodesLoadSrc := .ok []
  waitCpImage := none
  attrCpImage := .ok (some "http://x/img.png")
  nodesViewPaging := .ok [anchor "/prev", anchor "/next", anchor "/prev", anchor "/next"]
  nodesChapterpager := .ok [anchor "/p3", anchor "/p4", anchor "/p3", anchor "/p4"]
  innerHTMLs := .ok ["3", "4", "3", "4"]
  current := .ok (some "3")

/-- The single-image page with a node query that returns only one anchor, twice:
the halved node sequence has one element and the halved label sequence two. -/
def fewNodesEngine : Engine :=
  { singleEngine with nodesChapterpager := .ok [anchor "/p3", anchor "/p3"] }

/-- The single-image page with a label script that returns only one label,
twice: the halved node sequence has two elements and the halved label sequence
one. -/
def fewLabelsEngine : Engine :=
  { singleEngine with innerHTMLs := .ok ["3", "3"] }

/-- The single-image page without any element of class `current`. -/
def noMarkerEngine : Engine :=
  { singleEngine with current := .ok none }

/-- A fresh tab whose navigation fails with a network error: the document
stays blank, so the one-second wait for `.load-src` times out, `#cp_image` is
not there, no selector matches a node and no element carries the `current`
class (spec section 7: a selector that matches nothing is an empty result). -/
def unloadedEngine : Engine where
  navigate := fun _ => some "page load error net::ERR_NAME_NOT_RESOLVED"
  waitLoadSrc := some "context deadline exceeded"
  nodesLoadSrc := .ok []
  waitCpImage := some "context canceled"
  attrCpImage := .error "context canceled"
  nodesViewPaging := .ok []
  nodesChapterpager := .ok []
  innerHTMLs := .ok []
  current := .ok none

/-! ## Auxiliary lemmas -/

theorem appendSrc_eq (nodes : List Node) (imageUrl : List String) :
    appendSrc imageUrl nodes = imageUrl ++ nodes.map (fun node => node.AttributeValue "src") := by
  induction nodes generalizing imageUrl with
  | nil => simp [appendSrc]
  | cons node rest ih =>
    have h := ih (imageUrl ++ [node.AttributeValue "src"])
    simp only [appendSrc, List.foldl_cons] at h ⊢
    rw [h]
    simp

theorem index0_of_ne_empty (s : String) (h : s ≠ "") :
    ∃ c, index0 s = .ok c ∧ (c = '/' ↔ beginsWithSlash s = true) := by
  rcases s with ⟨cs⟩
  cases cs with
  | nil => exact absurd rfl h
  | cons c rest => exact ⟨c, rfl, by simp [beginsWithSlash]⟩

theorem index0_empty : index0 "" = .error .indexOutOfRange := rfl

theorem beginsWithSlash_ne_empty (s : String) (h : beginsWithSlash s = true) : s ≠ "" := by
  intro hs
  subst hs
  simp [beginsWithSlash] at h

theorem chapterLoop_ok (nodes : List Node) (chapterArray : List PageNumber)
    (h : ∀ node ∈ nodes, node.AttributeValue "href" ≠ "") :
    chapterLoop nodes chapterArray = .ok (chapterArray ++ keptChapters nodes) := by
  induction nodes generalizing chapterArray with
  | nil => simp [chapterLoop, keptChapters]
  | cons node rest ih =>
    obtain ⟨c, hc, hiff⟩ := index0_of_ne_empty _ (h node (List.mem_cons_self _ _))
    have hrest : ∀ m ∈ rest, m.AttributeValue "href" ≠ "" :=
      fun m hm => h m (List.mem_cons_of_mem _ hm)
    by_cases hs : beginsWithSlash (node.AttributeValue "href") = true
    · have hc' : c = '/' := hiff.mpr hs
      simp only [chapterLoop, hc, bind, Except.bind, hc', if_true]
      rw [ih _ hrest]
      simp [keptChapters, List.filter_cons, hs]
    · have hc' : ¬ c = '/' := fun hh => hs (hiff.mp hh)
      simp only [chapterLoop, hc, bind, Except.bind, hc', if_false]
      rw [ih _ hrest]
      simp [keptChapters, List.filter_cons, hs]

theorem chapterLoop_fault (front rest : List Node) (node : Node)
    (chapterArray : List PageNumber)
    (hfront : ∀ m ∈ front, m.AttributeValue "href" ≠ "")
    (hnode : node.AttributeValue "href" = "") :
    chapterLoop (front ++ node :: rest) chapterArray = .error .indexOutOfRange := by
  induction front generalizing chapterArray with
  | nil =>
    simp only [List.nil_append, chapterLoop, hnode, index0_empty, bind, Except.bind]
  | cons m ms ih =>
    obtain ⟨c, hc, -⟩ := index0_of_ne_empty _ (hfront m (List.mem_cons_self _ _))
    have hms : ∀ k ∈ ms, k.AttributeValue "href" ≠ "" :=
      fun k hk => hfront k (List.mem_cons_of_mem _ hk)
    simp only [List.cons_append, chapterLoop, hc, bind, Except.bind]
    split
    · exact ih _ hms
    · exact ih _ hms

theorem firstHalf_append {α : Type} (front back : List α) (h : back.length = front.length) :
    firstHalf (front ++ back) = front := by
  have hlen : (front ++ back).length / 2 = front.length := by
    rw [List.length_append, h]; omega
  unfold firstHalf
  rw [hlen, List.take_left]

theorem sliceIndex_of_lt {α : Type} (xs : List α) (i : Nat) (h : i < xs.length) :
    sliceIndex xs i = .ok xs[i] := by
  simp [sliceIndex, List.getElem?_eq_getElem h]

theorem sliceIndex_of_le {α : Type} (xs : List α) (i : Nat) (h : xs.length ≤ i) :
    sliceIndex xs i = .error .indexOutOfRange := by
  simp [sliceIndex, List.getElem?_eq_none h]

theorem pageLoop_ok (pageNumbers : List String) (nodes : List Node) (index : Nat)
    (pagesArray : List PageNumber) (h : index + nodes.length ≤ pageNumbers.length) :
    pageLoop pageNumbers nodes index pagesArray
      = .ok (pagesArray ++ pairPages (pageNumbers.drop index) nodes) := by
  induction nodes generalizing index pagesArray with
  | nil => simp [pageLoop, pairPages]
  | cons node rest ih =>
    have hlt : index < pageNumbers.length := by
      simp only [List.length_cons] at h; omega
    have hrest : index + 1 + rest.length ≤ pageNumbers.length := by
      simp only [List.length_cons] at h; omega
    simp only [pageLoop, sliceIndex_of_lt _ _ hlt, bind, Except.bind]
    rw [ih _ _ hrest, List.drop_eq_getElem_cons hlt]
    simp only [pairPages, List.zipWith_cons_cons, List.append_assoc, List.singleton_append]

theorem pageLoop_fault (pageNumbers : List String) (nodes : List Node) (index : Nat)
    (pagesArray : List PageNumber) (hindex : index ≤ pageNumbers.length)
    (h : pageNumbers.length < index + nodes.length) :
    pageLoop pageNumbers nodes index pagesArray = .error .indexOutOfRange := by
  induction nodes generalizing index pagesArray with
  | nil => simp only [List.length_nil] at h; omega
  | cons node rest ih =>
    by_cases hlt : index < pageNumbers.length
    · have hrest : pageNumbers.length < index + 1 + rest.length := by
        simp only [List.length_cons] at h; omega
      simp only [pageLoop, sliceIndex_of_lt _ _ hlt, bind, Except.bind]
      exact ih _ _ hlt hrest
    · simp only [pageLoop, sliceIndex_of_le _ _ (Nat.le_of_not_lt hlt), bind, Except.bind]

theorem length_firstHalf {α : Type} (xs : List α) : (firstHalf xs).length = xs.length / 2 := by
  simp only [firstHalf, List.length_take]
  omega

theorem getElem?_firstHalf {α : Type} (xs : List α) (i : Nat) (h : i < xs.length / 2) :
    (firstHalf xs)[i]? = xs[i]? := by
  simp [firstHalf, List.getElem?_take, h]

theorem getPagePager_of_run (e : Engine) (response : PageResponse) (nodes : List Node)
    (pageNumbers : List String) (currentPage : String)
    (hrun : pagePagerRun e = .ok (nodes, pageNumbers, currentPage)) :
    getPagePager e response =
      (pageLoop (firstHalf pageNumbers) (firstHalf nodes) 0 []).map
        (fun pagesArray =>
          { response with PagePager := pagesArray, CurrentPage := currentPage }) := by
  simp only [getPagePager, hrun]
  cases pageLoop (firstHalf pageNumbers) (firstHalf nodes) 0 [] <;> rfl

theorem getPagePager_of_le (e : Engine) (response : PageResponse) (nodes : List Node)
    (pageNumbers : List String) (currentPage : String)
    (hrun : pagePagerRun e = .ok (nodes, pageNumbers, currentPage))
    (hle : nodes.length / 2 ≤ pageNumbers.length / 2) :
    getPagePager e response =
      .ok { response with
        PagePager := pairPages (firstHalf pageNumbers) (firstHalf nodes),
        CurrentPage := currentPage } := by
  have hbound : 0 + (firstHalf nodes).length ≤ (firstHalf pageNumbers).length := by
    rw [length_firstHalf, length_firstHalf]; omega
  rw [getPagePager_of_run e response nodes pageNumbers currentPage hrun,
    pageLoop_ok _ _ 0 [] hbound]
  simp [Except.map]

theorem getPagePager_of_gt (e : Engine) (response : PageResponse) (nodes : List Node)
    (pageNumbers : List String) (currentPage : String)
    (hrun : pagePagerRun e = .ok (nodes, pageNumbers, currentPage))
    (hgt : pageNumbers.length / 2 < nodes.length / 2) :
    getPagePager e response = .error .indexOutOfRange := by
  have hbound : (firstHalf pageNumbers).length < 0 + (firstHalf nodes).length := by
    rw [length_firstHalf, length_firstHalf]; omega
  rw [getPagePager_of_run e response nodes pageNumbers currentPage hrun,
    pageLoop_fault _ _ 0 [] (Nat.zero_le _) hbound]
  rfl

theorem length_pairPages_firstHalf (nodes : List Node) (pageNumbers : List String)
    (hle : nodes.length / 2 ≤ pageNumbers.length / 2) :
    (pairPages (firstHalf pageNumbers) (firstHalf nodes)).length = nodes.length / 2 := by
  simp only [pairPages, List.length_zipWith, length_firstHalf]
  omega

theorem getElem?_pairPages_firstHalf (nodes : List Node) (pageNumbers : List String)
    (hle : nodes.length / 2 ≤ pageNumbers.length / 2) (i : Nat) (hi : i < nodes.length / 2) :
    ∃ label node, pageNumbers[i]? = some label ∧ nodes[i]? = some node ∧
      (pairPages (firstHalf pageNumbers) (firstHalf nodes))[i]?
        = some { Number := label, Url := node.AttributeValue "href" } := by
  have hn : i < nodes.length := by omega
  have hl : i < pageNumbers.length := by omega
  refine ⟨pageNumbers[i], nodes[i], List.getElem?_eq_getElem hl, List.getElem?_eq_getElem hn, ?_⟩
  rw [pairPages, List.getElem?_zipWith_eq_some]
  refine ⟨pageNumbers[i], nodes[i], ?_, ?_, rfl⟩
  · rw [getElem?_firstHalf _ _ (by omega), List.getElem?_eq_getElem hl]
  · rw [getElem?_firstHalf _ _ hi, List.getElem?_eq_getElem hn]

theorem pagePagerRun_ok (e : Engine) (nodes : List Node) (pageNumbers : List String)
    (html : String) (hnodes : e.nodesChapterpager = .ok nodes)
    (hlabels : e.innerHTMLs = .ok pageNumbers) (hcurrent : e.current = .ok (some html)) :
    pagePagerRun e = .ok (nodes, pageNumbers, html) := by
  simp [pagePagerRun, evalCurrent, hnodes, hlabels, hcurrent]

theorem pagePagerRun_no_marker (e : Engine) (hcurrent : e.current = .ok none) :
    ∃ err, pagePagerRun e = .error err := by
  unfold pagePagerRun
  cases e.nodesChapterpager with
  | error err => exact ⟨err, rfl⟩
  | ok nodes =>
    cases e.innerHTMLs with
    | error err => exact ⟨err, rfl⟩
    | ok pageNumbers =>
      refine ⟨"TypeError: Cannot read properties of null (reading innerHTML)", ?_⟩
      simp only [evalCurrent, hcurrent]

theorem getChapterPager_eq_map (e : Engine) (response : PageResponse) :
    getChapterPager e response =
      (getChapterPager e {}).map
        (fun c => { response with ChapterPager := c.ChapterPager }) := by
  unfold getChapterPager
  cases e.nodesViewPaging with
  | error err => rfl
  | ok nodes =>
    dsimp only
    cases chapterLoop (firstHalf nodes) [] <;> rfl

theorem getPagePager_eq_map (e : Engine) (response : PageResponse) :
    getPagePager e response =
      (getPagePager e {}).map
        (fun p => { response with PagePager := p.PagePager, CurrentPage := p.CurrentPage }) := by
  unfold getPagePager
  cases pagePagerRun e with
  | error err => rfl
  | ok run =>
    obtain ⟨nodes, pageNumbers, currentPage⟩ := run
    dsimp only
    cases pageLoop (firstHalf pageNumbers) (firstHalf nodes) 0 [] <;> rfl

theorem scrapePage_cases (e : Engine) (pr : PageRequest) :
    scrapePage e pr = {} ∨ ∃ src, scrapePage e pr = { ImageUrl := [src] } := by
  unfold scrapePage
  rcases cpImageSrc e pr with ⟨nodeValue, ok⟩
  cases ok
  · exact Or.inl rfl
  · exact Or.inr ⟨nodeValue, rfl⟩

theorem scrapePage_of_navigate_error (e : Engine) (pr : PageRequest) (err : String)
    (hnav : e.navigate pr.Url = some err) : scrapePage e pr = {} := by
  simp [scrapePage, cpImageSrc, hnav]

theorem scrapeLongPage_eq (e : Engine) (pr : PageRequest) (hnav : e.navigate pr.Url = none) :
    scrapeLongPage e pr
      = .ok { ImageUrl := (longPageNodes e).map (fun node => node.AttributeValue "src") } := by
  simp only [scrapeLongPage, hnav, appendSrc_eq, List.nil_append]

theorem initChapter_of_navigate_error (e : Engine) (pr : PageRequest) (err : String)
    (hnav : e.navigate pr.Url = some err) : initChapter e pr = .error (.fatal err) := by
  simp only [initChapter, scrapeLongPage, hnav, bind, Except.bind]

theorem initChapter_single (e : Engine) (pr : PageRequest) (response : PageResponse)
    (hprobe : scrapeLongPage e pr = .ok response) (hnone : response.ImageUrl.length < 1) :
    initChapter e pr = getPagePager e (scrapePage e pr) := by
  simp only [initChapter, hprobe, bind, Except.bind, hnone, if_true]

theorem initChapter_long (e : Engine) (pr : PageRequest) (response : PageResponse)
    (hprobe : scrapeLongPage e pr = .ok response) (hsome : ¬ response.ImageUrl.length < 1) :
    initChapter e pr =
      (getChapterPager e response).map (fun c => { c with LongPage := true }) := by
  simp only [initChapter, hprobe, bind, Except.bind, hsome, if_false]
  cases getChapterPager e response <;> rfl

theorem scrape_eq (e : Engine) (pr : PageRequest) :
    scrape e pr = (getChapterPager e (scrapePage e pr)).bind (getPagePager e) := by
  rfl

theorem getChapterPager_transfer (e : Engine) (r₁ r₂ c : PageResponse)
    (h : getChapterPager e r₁ = .ok c) :
    getChapterPager e r₂ = .ok { r₂ with ChapterPager := c.ChapterPager } := by
  rw [getChapterPager_eq_map] at h
  rw [getChapterPager_eq_map e r₂]
  cases h0 : getChapterPager e {} with
  | error err => rw [h0] at h; cases h
  | ok c0 =>
    rw [h0] at h
    simp only [Except.map, Except.ok.injEq] at h ⊢
    rw [← h]

theorem getPagePager_transfer (e : Engine) (r₁ r₂ p : PageResponse)
    (h : getPagePager e r₁ = .ok p) :
    getPagePager e r₂
      = .ok { r₂ with PagePager := p.PagePager, CurrentPage := p.CurrentPage } := by
  rw [getPagePager_eq_map] at h
  rw [getPagePager_eq_map e r₂]
  cases h0 : getPagePager e {} with
  | error err => rw [h0] at h; cases h
  | ok p0 =>
    rw [h0] at h
    simp only [Except.map, Except.ok.injEq] at h ⊢
    rw [← h]

theorem getChapterPager_ok (e : Engine) (r c : PageResponse)
    (h : getChapterPager e r = .ok c) : c = { r with ChapterPager := c.ChapterPager } := by
  have h2 := getChapterPager_transfer e r r c h
  rw [h] at h2
  exact Except.ok.inj h2

theorem getPagePager_ok (e : Engine) (r p : PageResponse)
    (h : getPagePager e r = .ok p) :
    p = { r with PagePager := p.PagePager, CurrentPage := p.CurrentPage } := by
  have h2 := getPagePager_transfer e r r p h
  rw [h] at h2
  exact Except.ok.inj h2

theorem scrapePage_fields (e : Engine) (pr : PageRequest) :
    (scrapePage e pr).ImageUrl.length ≤ 1 ∧ (scrapePage e pr).ChapterPager = [] ∧
      (scrapePage e pr).PagePager = [] ∧ (scrapePage e pr).LongPage = false ∧
      (scrapePage e pr).CurrentPage = "" := by
  rcases scrapePage_cases e pr with h | ⟨src, h⟩ <;> rw [h] <;> simp

theorem scrapeLongPage_ok (e : Engine) (pr : PageRequest) (probe : PageResponse)
    (h : scrapeLongPage e pr = .ok probe) :
    probe = { ImageUrl := (longPageNodes e).map (fun node => node.AttributeValue "src") } := by
  cases hnav : e.navigate pr.Url with
  | some err => simp [scrapeLongPage, hnav] at h
  | none =>
    rw [scrapeLongPage_eq e pr hnav] at h
    exact (Except.ok.inj h).symm

/-! ## The chapter pager -/

/-- C1: when the chapter pager query returns `2n` anchors (`front` followed by
`back`, `n` each) and every node of the first half has a non-empty `href`,
`getChapterPager` returns with `ChapterPager` set to the entries
`{Number: "", Url: href}`, in document order, of exactly those nodes of the
first half whose `href` begins with `/`.  The second half does not occur in the
result, and every entry has an empty number and a target beginning with `/`. -/
theorem getChapterPager_canonical_half (e : Engine) (response : PageResponse) (n : Nat)
    (front back : List Node)
    (hquery : e.nodesViewPaging = .ok (front ++ back))
    (hfront : front.length = n) (hback : back.length = n)
    (hhref : ∀ node ∈ front, node.AttributeValue "href" ≠ "") :
    getChapterPager e response
        = .ok { response with
            ChapterPager :=
              (front.filter (fun node => beginsWithSlash (node.AttributeValue "href"))).map
                (fun node => { Number := "", Url := node.AttributeValue "href" }) } ∧
      ∀ r, getChapterPager e response = .ok r →
        ∀ entry ∈ r.ChapterPager, entry.Number = "" ∧ beginsWithSlash entry.Url = true ∧
          ∃ node ∈ front, entry.Url = node.AttributeValue "href" := by
  have hhalf : firstHalf (front ++ back) = front := firstHalf_append front back (by omega)
  have hrun : getChapterPager e response = .ok { response with ChapterPager := keptChapters front } := by
    simp only [getChapterPager, hquery, hhalf, chapterLoop_ok front [] hhref, bind, Except.bind,
      List.nil_append, pure, Except.pure]
  refine ⟨hrun, ?_⟩
  intro r hr entry hentry
  rw [hrun] at hr
  cases hr
  simp only [keptChapters, List.mem_map, List.mem_filter] at hentry
  obtain ⟨node, ⟨hnode, hslash⟩, rfl⟩ := hentry
  exact ⟨rfl, hslash, node, hnode, rfl⟩

/-- C1, at a pager of four anchors whose canonical half is `/prev`, `#top`. -/
theorem getChapterPager_canonical_half_witness :
    getChapterPager chapterEngine {}
        = .ok { ChapterPager := [{ Number := "", Url := "/prev" }] } ∧
      ∀ r, getChapterPager chapterEngine {} = .ok r →
        ∀ entry ∈ r.ChapterPager, entry.Number = "" ∧ beginsWithSlash entry.Url = true ∧
          ∃ node ∈ [anchor "/prev", anchor "#top"], entry.Url = node.AttributeValue "href" :=
  getChapterPager_canonical_half chapterEngine {} 2
    [anchor "/prev", anchor "#top"] [anchor "/prev", anchor "#top"] rfl rfl rfl (by decide)

/-- C9: on a chapter pager whose first anchor has no `href`, `getChapterPager`
does not complete: reading byte 0 of the empty string raises a runtime panic,
where an empty query result gives an empty `ChapterPager`. -/
theorem getChapterPager_absent_href_panics :
    getChapterPager bareAnchorEngine {} = .error .indexOutOfRange ∧
      getChapterPager quietEngine {} = .ok {} := by
  constructor <;> rfl

/-! ## The long-page probe -/

/-- C10: when navigation succeeds, `scrapeLongPage` returns; if the wait and
the node query succeed with `nodes`, `ImageUrl` has the length of `nodes` and
its `i`-th entry is the `src` of the `i`-th node, the empty string when the
node has no `src`; if the wait times out, the query fails or no node matches,
`ImageUrl` is empty. -/
theorem scrapeLongPage_images (e : Engine) (pr : PageRequest)
    (hnav : e.navigate pr.Url = none) :
    ∃ response, scrapeLongPage e pr = .ok response ∧
      (∀ nodes, e.waitLoadSrc = none → e.nodesLoadSrc = .ok nodes →
        response.ImageUrl.length = nodes.length ∧
        (∀ i : Nat, response.ImageUrl[i]? =
          nodes[i]?.map (fun node : Node => node.AttributeValue "src")) ∧
        (∀ (i : Nat) (node : Node), nodes[i]? = some node → node.Attribute "src" = none →
          response.ImageUrl[i]? = some "")) ∧
      ((e.waitLoadSrc ≠ none ∨ e.nodesLoadSrc = .ok [] ∨ ∃ err, e.nodesLoadSrc = .error err) →
        response.ImageUrl = []) := by
  refine ⟨_, by simp only [scrapeLongPage, hnav]; rfl, ?_, ?_⟩
  · intro nodes hwait hnodes
    have hprobe : longPageNodes e = nodes := by simp [longPageNodes, hwait, hnodes]
    simp only [hprobe, appendSrc_eq, List.nil_append, List.length_map, List.getElem?_map,
      true_and]
    refine ⟨fun _ => trivial, ?_⟩
    intro i node hi hsrc
    simp [hi, Node.AttributeValue, hsrc]
  · intro h
    have hprobe : longPageNodes e = [] := by
      rcases h with h | h | ⟨err, h⟩
      · cases hw : e.waitLoadSrc with
        | none => exact absurd hw h
        | some _ => simp [longPageNodes, hw]
      · cases hw : e.waitLoadSrc <;> simp [longPageNodes, hw, h]
      · cases hw : e.waitLoadSrc <;> simp [longPageNodes, hw, h]
    simp [hprobe, appendSrc]

/-- C10, at a long page of three nodes whose second has no `src`. -/
theorem scrapeLongPage_images_witness :
    ∃ response, scrapeLongPage longEngine { Url := "http://x/long" } = .ok response ∧
      (∀ nodes, longEngine.waitLoadSrc = none → longEngine.nodesLoadSrc = .ok nodes →
        response.ImageUrl.length = nodes.length ∧
        (∀ i : Nat, response.ImageUrl[i]? =
          nodes[i]?.map (fun node : Node => node.AttributeValue "src")) ∧
        (∀ (i : Nat) (node : Node), nodes[i]? = some node → node.Attribute "src" = none →
          response.ImageUrl[i]? = some "")) ∧
      ((longEngine.waitLoadSrc ≠ none ∨ longEngine.nodesLoadSrc = .ok [] ∨
          ∃ err, longEngine.nodesLoadSrc = .error err) →
        response.ImageUrl = []) :=
  scrapeLongPage_images longEngine { Url := "http://x/long" } rfl

/-! ## The page pager -/

/-- C2: when the page pager queries return `nodes`, `labels` and the marker
text, and the halved lengths are both `n`, `getPagePager` returns with
`PagePager` of exactly `n` entries, the `i`-th of which has the `i`-th label
as `Number` and the `href` of the `i`-th node as `Url`. -/
theorem getPagePager_pairs (e : Engine) (response : PageResponse) (nodes : List Node)
    (labels : List String) (currentPage : String) (n : Nat)
    (hrun : pagePagerRun e = .ok (nodes, labels, currentPage))
    (hnodes : nodes.length / 2 = n) (hlabels : labels.length / 2 = n) :
    ∃ pagesArray,
      getPagePager e response
        = .ok { response with PagePager := pagesArray, CurrentPage := currentPage } ∧
      pagesArray.length = n ∧
      ∀ i, i < n → ∃ label node, labels[i]? = some label ∧ nodes[i]? = some node ∧
        pagesArray[i]? = some { Number := label, Url := node.AttributeValue "href" } := by
  have hle : nodes.length / 2 ≤ labels.length / 2 := by omega
  refine ⟨_, getPagePager_of_le e response nodes labels currentPage hrun hle, ?_, ?_⟩
  · rw [length_pairPages_firstHalf nodes labels hle, hnodes]
  · intro i hi
    exact getElem?_pairPages_firstHalf nodes labels hle i (by omega)

/-- C2, at the single-image page: two entries, `3 -> /p3` and `4 -> /p4`. -/
theorem getPagePager_pairs_witness :
    ∃ pagesArray,
      getPagePager singleEngine {}
        = .ok { PagePager := pagesArray, CurrentPage := "3" } ∧
      pagesArray.length = 2 ∧
      ∀ i, i < 2 → ∃ label node,
        ["3", "4", "3", "4"][i]? = some label ∧
        [anchor "/p3", anchor "/p4", anchor "/p3", anchor "/p4"][i]? = some node ∧
        pagesArray[i]? = some { Number := label, Url := node.AttributeValue "href" } :=
  getPagePager_pairs singleEngine {}
    [anchor "/p3", anchor "/p4", anchor "/p3", anchor "/p4"] ["3", "4", "3", "4"] "3" 2
    rfl rfl rfl

/-- C5, as stated, fails: with halved lengths 1 and 2 `getPagePager` returns a
`PagePager` cut to the single node, and with halved lengths 2 and 1 it indexes
the label slice out of range; neither run ends in a reported fatal error. -/
theorem getPagePager_mismatch_counterexample :
    (pagePagerRun fewNodesEngine
        = .ok ([anchor "/p3", anchor "/p3"], ["3", "4", "3", "4"], "3") ∧
      [anchor "/p3", anchor "/p3"].length / 2 ≠ ["3", "4", "3", "4"].length / 2 ∧
      getPagePager fewNodesEngine {}
        = .ok { PagePager := [{ Number := "3", Url := "/p3" }], CurrentPage := "3" }) ∧
    (pagePagerRun fewLabelsEngine
        = .ok ([anchor "/p3", anchor "/p4", anchor "/p3", anchor "/p4"], ["3", "3"], "3") ∧
      [anchor "/p3", anchor "/p4", anchor "/p3", anchor "/p4"].length / 2
        ≠ ["3", "3"].length / 2 ∧
      getPagePager fewLabelsEngine {} = .error .indexOutOfRange) := by
  refine ⟨⟨rfl, by decide, rfl⟩, ⟨rfl, by decide, rfl⟩⟩

/-- C5, amended: when the page pager queries return sequences whose halved
lengths differ, `getPagePager` makes no consistency check.  If the node half is
the shorter one it returns with one entry per node of that half, paired with
the label of the same index, the further labels being ignored; if the label
half is the shorter one the label index runs out of range and the call ends in
a runtime panic.  In neither case is a fatal error reported. -/
theorem getPagePager_mismatch (e : Engine) (response : PageResponse) (nodes : List Node)
    (labels : List String) (currentPage : String)
    (hrun : pagePagerRun e = .ok (nodes, labels, currentPage))
    (hne : nodes.length / 2 ≠ labels.length / 2) :
    (nodes.length / 2 < labels.length / 2 →
      ∃ pagesArray,
        getPagePager e response
          = .ok { response with PagePager := pagesArray, CurrentPage := currentPage } ∧
        pagesArray.length = nodes.length / 2 ∧
        ∀ i, i < nodes.length / 2 → ∃ label node,
          labels[i]? = some label ∧ nodes[i]? = some node ∧
          pagesArray[i]? = some { Number := label, Url := node.AttributeValue "href" }) ∧
    (labels.length / 2 < nodes.length / 2 →
      getPagePager e response = .error .indexOutOfRange) ∧
    ∀ err, getPagePager e response ≠ .error (.fatal err) := by
  refine ⟨?_, ?_, ?_⟩
  · intro hlt
    have hle : nodes.length / 2 ≤ labels.length / 2 := by omega
    exact ⟨_, getPagePager_of_le e response nodes labels currentPage hrun hle,
      length_pairPages_firstHalf nodes labels hle,
      fun i hi => getElem?_pairPages_firstHalf nodes labels hle i hi⟩
  · intro hgt
    exact getPagePager_of_gt e response nodes labels currentPage hrun hgt
  · intro err
    rcases Nat.lt_or_gt_of_ne hne with hlt | hgt
    · rw [getPagePager_of_le e response nodes labels currentPage hrun (by omega)]
      exact fun h => by cases h
    · rw [getPagePager_of_gt e response nodes labels currentPage hrun hgt]
      exact fun h => by cases h

/-- C5 amended, at halved lengths 1 (nodes) and 2 (labels). -/
theorem getPagePager_mismatch_witness :
    ([anchor "/p3", anchor "/p3"].length / 2 < ["3", "4", "3", "4"].length / 2 →
      ∃ pagesArray,
        getPagePager fewNodesEngine {}
          = .ok { PagePager := pagesArray, CurrentPage := "3" } ∧
        pagesArray.length = [anchor "/p3", anchor "/p3"].length / 2 ∧
        ∀ i, i < [anchor "/p3", anchor "/p3"].length / 2 → ∃ label node,
          ["3", "4", "3", "4"][i]? = some label ∧
          [anchor "/p3", anchor "/p3"][i]? = some node ∧
          pagesArray[i]? = some { Number := label, Url := node.AttributeValue "href" }) ∧
    (["3", "4", "3", "4"].length / 2 < [anchor "/p3", anchor "/p3"].length / 2 →
      getPagePager fewNodesEngine {} = .error .indexOutOfRange) ∧
    ∀ err, getPagePager fewNodesEngine {} ≠ .error (.fatal err) :=
  getPagePager_mismatch fewNodesEngine {} [anchor "/p3", anchor "/p3"]
    ["3", "4", "3", "4"] "3" rfl (by decide)

/-- C8, as stated, fails: on the single-image page without a `current` element
the marker script throws, the run returns the exception and `getPagePager`
ends in `log.Fatal`. -/
theorem getPagePager_no_marker_counterexample :
    noMarkerEngine.current = .ok none ∧
      getPagePager noMarkerEngine {}
        = .error (.fatal "TypeError: Cannot read properties of null (reading innerHTML)") := by
  constructor <;> rfl

/-- C8, amended: on a page where no element carries the `current` class the
marker script fails and `getPagePager` ends in a fatal error; when the marker
is present with inner HTML `html`, the node and label queries succeed and the
node half is not longer than the label half, `getPagePager` returns with
`CurrentPage = html`. -/
theorem getPagePager_current (e : Engine) (response : PageResponse) :
    (e.current = .ok none → ∃ err, getPagePager e response = .error (.fatal err)) ∧
    (∀ (html : String) (nodes : List Node) (labels : List String),
      e.current = .ok (some html) → e.nodesChapterpager = .ok nodes →
      e.innerHTMLs = .ok labels → nodes.length / 2 ≤ labels.length / 2 →
      ∃ r, getPagePager e response = .ok r ∧ r.CurrentPage = html) := by
  constructor
  · intro hcurrent
    obtain ⟨err, herr⟩ := pagePagerRun_no_marker e hcurrent
    exact ⟨err, by simp only [getPagePager, herr]⟩
  · intro html nodes labels hcurrent hnodes hlabels hle
    have hrun := pagePagerRun_ok e nodes labels html hnodes hlabels hcurrent
    exact ⟨_, getPagePager_of_le e response nodes labels html hrun hle, rfl⟩

/-- C8 amended, at the page without a marker and at the page whose marker
reads `3`. -/
theorem getPagePager_current_witness :
    (∃ err, getPagePager noMarkerEngine {} = .error (.fatal err)) ∧
      ∃ r, getPagePager singleEngine {} = .ok r ∧ r.CurrentPage = "3" :=
  ⟨(getPagePager_current noMarkerEngine {}).1 rfl,
    (getPagePager_current singleEngine {}).2 "3"
      [anchor "/p3", anchor "/p4", anchor "/p3", anchor "/p4"] ["3", "4", "3", "4"]
      rfl rfl rfl (by decide)⟩

/-! ## The workflows -/

/-- C3: on the single-image page the long-page probe yields no image and the
initial workflow returns the image, the page pager and the current page, but
an empty `ChapterPager`: its single-page branch never calls `getChapterPager`,
which on this page resolves to `/prev`, `/next`, as the scrape workflow
returns it. -/
theorem initChapter_single_page_chapterPager :
    scrapeLongPage singleEngine { Url := "http://x/ch1" } = .ok { ImageUrl := [] } ∧
    initChapter singleEngine { Url := "http://x/ch1" }
      = .ok { ImageUrl := ["http://x/img.png"],
              ChapterPager := [],
              PagePager := [{ Number := "3", Url := "/p3" }, { Number := "4", Url := "/p4" }],
              LongPage := false,
              CurrentPage := "3" } ∧
    getChapterPager singleEngine {}
      = .ok { ChapterPager := [{ Number := "", Url := "/prev" }, { Number := "", Url := "/next" }] } ∧
    scrape singleEngine { Url := "http://x/ch1" }
      = .ok { ImageUrl := ["http://x/img.png"],
              ChapterPager := [{ Number := "", Url := "/prev" }, { Number := "", Url := "/next" }],
              PagePager := [{ Number := "3", Url := "/p3" }, { Number := "4", Url := "/p4" }],
              LongPage := false,
              CurrentPage := "3" } := by
  refine ⟨rfl, rfl, rfl, rfl⟩

/-- C4: a descriptor returned by the initial or by the scrape workflow with
`LongPage` set has an empty `PagePager`, an empty `CurrentPage` and as
`ImageUrl` the non-empty sequence the long-page probe returned; one with
`LongPage` unset has at most one image.  In the initial workflow `LongPage` is
set exactly when the long-page probe returned at least one image. -/
theorem descriptor_invariant (e : Engine) (pr : PageRequest) (d : PageResponse)
    (h : initChapter e pr = .ok d ∨ scrape e pr = .ok d) :
    (d.LongPage = true →
      d.PagePager = [] ∧ d.CurrentPage = "" ∧ d.ImageUrl ≠ [] ∧
        scrapeLongPage e pr = .ok { ImageUrl := d.ImageUrl }) ∧
    (d.LongPage = false → d.ImageUrl.length ≤ 1) ∧
    (initChapter e pr = .ok d →
      ∃ probe, scrapeLongPage e pr = .ok probe ∧
        (d.LongPage = true ↔ 1 ≤ probe.ImageUrl.length)) := by
  obtain ⟨hlen, -, -, hlong, -⟩ := scrapePage_fields e pr
  have hinit : initChapter e pr = .ok d →
      (d.LongPage = true →
        d.PagePager = [] ∧ d.CurrentPage = "" ∧ d.ImageUrl ≠ [] ∧
          scrapeLongPage e pr = .ok { ImageUrl := d.ImageUrl }) ∧
      (d.LongPage = false → d.ImageUrl.length ≤ 1) ∧
      ∃ probe, scrapeLongPage e pr = .ok probe ∧
        (d.LongPage = true ↔ 1 ≤ probe.ImageUrl.length) := by
    intro hd
    cases hprobe : scrapeLongPage e pr with
    | error err => simp [initChapter, hprobe, bind, Except.bind] at hd
    | ok probe =>
      have hshape := scrapeLongPage_ok e pr probe hprobe
      by_cases hnone : probe.ImageUrl.length < 1
      · rw [initChapter_single e pr probe hprobe hnone] at hd
        have hfields := getPagePager_ok e _ d hd
        have hL : d.LongPage = false := by rw [hfields]; exact hlong
        have hI : d.ImageUrl = (scrapePage e pr).ImageUrl := by rw [hfields]
        refine ⟨fun ht => ?_, fun _ => by rw [hI]; exact hlen, probe, rfl, ?_⟩
        · rw [hL] at ht; cases ht
        · rw [hL]
          constructor
          · intro ht; cases ht
          · intro hge; omega
      · rw [initChapter_long e pr probe hprobe hnone] at hd
        cases hc : getChapterPager e probe with
        | error err => rw [hc] at hd; cases hd
        | ok c =>
          rw [hc] at hd
          have hfields := getChapterPager_ok e probe c hc
          have hd2 : d = { c with LongPage := true } := (Except.ok.inj hd).symm
          have hI : d.ImageUrl = probe.ImageUrl := by rw [hd2, hfields]
          have hP : d.PagePager = [] := by rw [hd2, hfields, hshape]
          have hC : d.CurrentPage = "" := by rw [hd2, hfields, hshape]
          have hL : d.LongPage = true := by rw [hd2]
          refine ⟨fun _ => ⟨hP, hC, ?_, ?_⟩, fun hf => ?_, probe, rfl, ?_⟩
          · intro hnil
            rw [hI] at hnil
            rw [hnil] at hnone
            exact hnone (by decide)
          · rw [hI, hshape]
          · rw [hL] at hf; cases hf
          · rw [hL]
            constructor
            · intro _; omega
            · intro _; rfl
  rcases h with h | h
  · obtain ⟨h1, h2, h3⟩ := hinit h
    exact ⟨h1, h2, fun _ => h3⟩
  · rw [scrape_eq] at h
    cases hc : getChapterPager e (scrapePage e pr) with
    | error err => rw [hc] at h; cases h
    | ok c =>
      rw [hc] at h
      have hp : getPagePager e c = .ok d := h
      have hfc := getChapterPager_ok e _ c hc
      have hfp := getPagePager_ok e c d hp
      have hL : d.LongPage = false := by rw [hfp, hfc]; exact hlong
      have hI : d.ImageUrl = (scrapePage e pr).ImageUrl := by rw [hfp, hfc]
      refine ⟨fun ht => ?_, fun _ => by rw [hI]; exact hlen, fun hd => (hinit hd).2.2⟩
      rw [hL] at ht; cases ht

/-- C4, at the long page of three images. -/
theorem descriptor_invariant_witness :
    ((true = true →
      ([] : List PageNumber) = [] ∧ "" = "" ∧
        ["http://x/1.png", "", "http://x/3.png"] ≠ [] ∧
        scrapeLongPage longEngine { Url := "http://x/long" }
          = .ok { ImageUrl := ["http://x/1.png", "", "http://x/3.png"] }) ∧
    (true = false → ["http://x/1.png", "", "http://x/3.png"].length ≤ 1) ∧
    (initChapter longEngine { Url := "http://x/long" }
        = .ok { ImageUrl := ["http://x/1.png", "", "http://x/3.png"], LongPage := true } →
      ∃ probe, scrapeLongPage longEngine { Url := "http://x/long" } = .ok probe ∧
        (true = true ↔ 1 ≤ probe.ImageUrl.length))) :=
  descriptor_invariant longEngine { Url := "http://x/long" }
    { ImageUrl := ["http://x/1.png", "", "http://x/3.png"], LongPage := true } (Or.inl rfl)

/-- C6: the scrape workflow returns exactly when both pager resolutions
succeed, whatever the single-image probe found; the descriptor then carries the
`ChapterPager` of `getChapterPager`, the `PagePager` and `CurrentPage` of
`getPagePager`, the images of `scrapePage` and `LongPage = false`.  No answer
of the engine about the long-page selector has any influence on the result. -/
theorem scrape_resolves_both_pagers (e : Engine) (pr : PageRequest) :
    (∀ r₁ r₂ c p : PageResponse, getChapterPager e r₁ = .ok c → getPagePager e r₂ = .ok p →
      scrape e pr = .ok { ImageUrl := (scrapePage e pr).ImageUrl,
                          ChapterPager := c.ChapterPager,
                          PagePager := p.PagePager,
                          LongPage := false,
                          CurrentPage := p.CurrentPage }) ∧
    (∀ d : PageResponse, scrape e pr = .ok d →
      d.LongPage = false ∧
      ∃ c p : PageResponse, getChapterPager e {} = .ok c ∧ getPagePager e {} = .ok p ∧
        d.ChapterPager = c.ChapterPager ∧ d.PagePager = p.PagePager ∧
        d.CurrentPage = p.CurrentPage) ∧
    (∀ (wait : Option String) (nodes : Except String (List Node)),
      scrape { e with waitLoadSrc := wait, nodesLoadSrc := nodes } pr = scrape e pr) := by
  obtain ⟨-, -, -, hlong, -⟩ := scrapePage_fields e pr
  refine ⟨?_, ?_, fun _ _ => rfl⟩
  · intro r₁ r₂ c p hc hp
    rw [scrape_eq, getChapterPager_transfer e r₁ (scrapePage e pr) c hc]
    show getPagePager e _ = _
    rw [getPagePager_transfer e r₂ _ p hp, hlong]
  · intro d hd
    rw [scrape_eq] at hd
    cases hc : getChapterPager e (scrapePage e pr) with
    | error err => rw [hc] at hd; cases hd
    | ok c =>
      rw [hc] at hd
      have hp : getPagePager e c = .ok d := hd
      have hfc := getChapterPager_ok e _ c hc
      have hfp := getPagePager_ok e c d hp
      refine ⟨by rw [hfp, hfc]; exact hlong, _, _,
        getChapterPager_transfer e _ {} c hc, getPagePager_transfer e c {} d hp, ?_, rfl, rfl⟩
      rw [hfp]

/-- C6, at the single-image page. -/
theorem scrape_resolves_both_pagers_witness :
    scrape singleEngine { Url := "http://x/ch1" }
      = .ok { ImageUrl := (scrapePage singleEngine { Url := "http://x/ch1" }).ImageUrl,
              ChapterPager := [{ Number := "", Url := "/prev" }, { Number := "", Url := "/next" }],
              PagePager := [{ Number := "3", Url := "/p3" }, { Number := "4", Url := "/p4" }],
              LongPage := false,
              CurrentPage := "3" } :=
  (scrape_resolves_both_pagers singleEngine { Url := "http://x/ch1" }).1 {} {}
    { ChapterPager := [{ Number := "", Url := "/prev" }, { Number := "", Url := "/next" }] }
    { PagePager := [{ Number := "3", Url := "/p3" }, { Number := "4", Url := "/p4" }],
      CurrentPage := "3" }
    rfl rfl

/-- When navigation to the URL fails with `err`, `initChapter` ends in the
fatal error `err`, while `scrape` records no image and goes on to resolve both
pagers on an empty response: it ends as those two calls end, and a descriptor
it returns has an empty `ImageUrl`. -/
theorem scrape_of_navigate_error (e : Engine) (pr : PageRequest) (err : String)
    (hnav : e.navigate pr.Url = some err) :
    initChapter e pr = .error (.fatal err) ∧
    scrape e pr = (getChapterPager e {}).bind (getPagePager e) ∧
    ∀ d : PageResponse, scrape e pr = .ok d → d.ImageUrl = [] := by
  have hscrape : scrape e pr = (getChapterPager e {}).bind (getPagePager e) := by
    rw [scrape_eq, scrapePage_of_navigate_error e pr err hnav]
  refine ⟨initChapter_of_navigate_error e pr err hnav, hscrape, ?_⟩
  intro d hd
  rw [hscrape] at hd
  cases hc : getChapterPager e {} with
  | error err => rw [hc] at hd; cases hd
  | ok c =>
    rw [hc] at hd
    have hp : getPagePager e c = .ok d := hd
    rw [getPagePager_ok e c d hp, getChapterPager_ok e {} c hc]

/-- C7: on a fresh tab whose navigation fails, `scrapeLongPage` and with it the
initial workflow end in `log.Fatal` on the navigation error, but `scrapePage`
returns an empty response as if the image were missing, and the scrape
workflow goes on to both pager resolutions: the navigation error is never
reported, and the fault that ends the call comes from the marker script run
on the blank document. -/
theorem scrape_swallows_navigation_error :
    unloadedEngine.navigate "http://x/ch1"
      = some "page load error net::ERR_NAME_NOT_RESOLVED" ∧
    scrapeLongPage unloadedEngine { Url := "http://x/ch1" }
      = .error (.fatal "page load error net::ERR_NAME_NOT_RESOLVED") ∧
    initChapter unloadedEngine { Url := "http://x/ch1" }
      = .error (.fatal "page load error net::ERR_NAME_NOT_RESOLVED") ∧
    scrapePage unloadedEngine { Url := "http://x/ch1" } = {} ∧
    scrape unloadedEngine { Url := "http://x/ch1" }
      = (getChapterPager unloadedEngine {}).bind (getPagePager unloadedEngine) ∧
    scrape unloadedEngine { Url := "http://x/ch1" }
      = .error (.fatal "TypeError: Cannot read properties of null (reading innerHTML)") ∧
    scrape unloadedEngine { Url := "http://x/ch1" }
      ≠ .error (.fatal "page load error net::ERR_NAME_NOT_RESOLVED") := by
  refine ⟨rfl, rfl, rfl, rfl, rfl, rfl, ?_⟩
  intro h
  have h2 : (Except.error
      (Fault.fatal "TypeError: Cannot read properties of null (reading innerHTML)") :
        Except Fault PageResponse)
      = .error (.fatal "page load error net::ERR_NAME_NOT_RESOLVED") := h
  exact absurd (Fault.fatal.inj (Except.error.inj h2)) (by decide)

end ManhuaGo
